import Mathlib

/-!
Verification development for the JobApplicant-be cover-letter worker
(src/src/worker.ts and src/src/cvProcessor.ts).

The worker's job handler is embedded shallowly:
  - JavaScript strings are modelled as Lean String / List Char
    (code points; UTF-16 index arithmetic on astral characters is out of
    scope, the relevant code paths and all witnesses are ASCII);
  - JSON.parse is modelled by an executable strict JSON parser over
    List Char with a fuel argument (the fuel passed by jsonParse? is
    always sufficient because each recursive level consumes input);
  - the try/catch around response parsing becomes an Option: every
    JavaScript exception path inside the try block (validation throw,
    TypeError from calling .split on a non-string, JSON.parse syntax
    error, property access on null) returns none, and none selects the
    catch-branch fallback, exactly as every such exception lands in the
    single catch block of worker.ts lines 176-276;
  - the stateful pipeline around the parser (worker.ts lines 68-364) is
    embedded as a pure function from the job input plus an environment
    of oracle results (one per external call) to an outcome and a trace
    of emitted effects.
-/

set_option maxRecDepth 100000

/-! ## JavaScript string primitives -/

/-- Whitespace for the JavaScript String.prototype.trim and the regex
class backslash-s: WhiteSpace plus LineTerminator code points. -/
def jsWsChar (c : Char) : Bool :=
  c = ' ' || c = '\t' || c = '\n' || c = '\u000b' || c = '\u000c' ||
  c = '\r' || c = '\u00a0' || c = '\ufeff' ||
  ('\u2000' ≤ c && c ≤ '\u200a') ||
  c = '\u1680' || c = '\u2028' || c = '\u2029' || c = '\u202f' ||
  c = '\u205f' || c = '\u3000'

/-- JavaScript s.trim() on a character list. -/
def jsTrimL (l : List Char) : List Char :=
  ((l.dropWhile jsWsChar).reverse.dropWhile jsWsChar).reverse

/-- JavaScript s.trim(). -/
def jsTrim (s : String) : String := String.mk (jsTrimL s.data)

/-- First index of character c (JavaScript indexOf, none for -1). -/
def idxOf? (l : List Char) (c : Char) : Option Nat :=
  match l with
  | [] => none
  | a :: t => if a = c then some 0 else (idxOf? t c).map (· + 1)

/-- Last index of character c (JavaScript lastIndexOf, none for -1). -/
def lastIdxOf? (l : List Char) (c : Char) : Option Nat :=
  match l with
  | [] => none
  | a :: t =>
    match lastIdxOf? t c with
    | some i => some (i + 1)
    | none => if a = c then some 0 else none

/-- First index of the substring pat (JavaScript String.prototype.indexOf
on a string argument, none for -1). -/
def subIdx? (l pat : List Char) : Option Nat :=
  match l with
  | [] => if pat.isEmpty then some 0 else none
  | _ :: t => if pat.isPrefixOf l then some 0 else (subIdx? t pat).map (· + 1)

/-- JavaScript String.prototype.includes. -/
def containsSub (s pat : String) : Bool := (subIdx? s.data pat.data).isSome

/-- JavaScript indexOf(pat, from): first occurrence at index ≥ from. -/
def subIdxFrom? (l pat : List Char) (start : Nat) : Option Nat :=
  (subIdx? (l.drop start) pat).map (· + start)

/-- JavaScript slice/substring(start, stop): characters in [start, stop). -/
def sliceL (l : List Char) (start stop : Nat) : List Char :=
  (l.drop start).take (stop - start)

/-- Replace every '"' with backslash-quote: the first replace of
worker.ts line 226. -/
def escQuote (l : List Char) : List Char :=
  l.flatMap fun c => if c = '"' then ['\\', '"'] else [c]

/-- Replace every newline with backslash-n: the second replace of
worker.ts line 226. -/
def escNl (l : List Char) : List Char :=
  l.flatMap fun c => if c = '\n' then ['\\', 'n'] else [c]

/-- Replace every two-character sequence backslash-n with a newline
(worker.ts lines 262/267, first replace); left to right, non-overlapping,
like the JavaScript global regex replace. -/
def replBSn (l : List Char) : List Char :=
  match l with
  | [] => []
  | '\\' :: 'n' :: t => '\n' :: replBSn t
  | c :: t => c :: replBSn t

/-- Replace every two-character sequence backslash-quote with a quote
(worker.ts lines 262/267, second replace). -/
def replBSq (l : List Char) : List Char :=
  match l with
  | [] => []
  | '\\' :: '"' :: t => '"' :: replBSq t
  | c :: t => c :: replBSq t

/-- The unescaping applied to regex captures in the catch branch:
replace backslash-n by newline, then backslash-quote by quote. -/
def unescJs (l : List Char) : List Char := replBSq (replBSn l)

/-- Number of segments of s.split(single space): one more than the
number of space characters (JavaScript split counts empty segments). -/
def countSegs (s : String) : Nat := s.data.count ' ' + 1

/-! ## JSON values and a strict JSON.parse model -/

/-- JSON values as produced by JSON.parse. Numbers keep their source
token: none of the verified properties depends on numeric value, only
on zeroness of the literal (see truthy). -/
inductive Json where
  | null : Json
  | bool : Bool → Json
  | num : String → Json
  | str : String → Json
  | arr : List Json → Json
  | obj : List (String × Json) → Json

/-- JSON interelement whitespace accepted by JSON.parse: exactly
space, tab, newline, carriage return. -/
def jsonWsChar (c : Char) : Bool :=
  c = ' ' || c = '\t' || c = '\n' || c = '\r'

def skipWsL (l : List Char) : List Char := l.dropWhile jsonWsChar

def hexVal? (c : Char) : Option Nat :=
  if '0' ≤ c ∧ c ≤ '9' then some (c.toNat - '0'.toNat)
  else if 'a' ≤ c ∧ c ≤ 'f' then some (c.toNat - 'a'.toNat + 10)
  else if 'A' ≤ c ∧ c ≤ 'F' then some (c.toNat - 'A'.toNat + 10)
  else none

/-- Decode the four hex digits of a backslash-u escape. -/
def hex4? (a b c d : Char) : Option Nat := do
  let x ← hexVal? a
  let y ← hexVal? b
  let z ← hexVal? c
  let w ← hexVal? d
  pure (((x * 16 + y) * 16 + z) * 16 + w)

/-- A backslash-u code unit as a character: a surrogate code point is
not a Unicode scalar, so a lone surrogate is mapped to U+FFFD. -/
def surrChar (n : Nat) : Char :=
  if 0xd800 ≤ n ∧ n ≤ 0xdfff then '\ufffd' else Char.ofNat n

/-- Body of a JSON string after the opening quote: returns the decoded
characters and the input after the closing quote. Control characters
below 0x20 are rejected, escapes follow the JSON grammar. A surrogate
pair of backslash-u escapes is combined; a lone surrogate (legal for
JSON.parse, but not a Unicode scalar, so not a Lean Char) is mapped to
U+FFFD, a deliberate model boundary no claim depends on. -/
def parseStringBody : Nat → List Char → Option (List Char × List Char)
  | 0, _ => none
  | fuel + 1, l =>
    match l with
    | [] => none
    | '"' :: t => some ([], t)
    | '\\' :: esc =>
      match esc with
      | '"' :: t => (parseStringBody fuel t).map fun (s, r) => ('"' :: s, r)
      | '\\' :: t => (parseStringBody fuel t).map fun (s, r) => ('\\' :: s, r)
      | '/' :: t => (parseStringBody fuel t).map fun (s, r) => ('/' :: s, r)
      | 'b' :: t => (parseStringBody fuel t).map fun (s, r) => ('\u0008' :: s, r)
      | 'f' :: t => (parseStringBody fuel t).map fun (s, r) => ('\u000c' :: s, r)
      | 'n' :: t => (parseStringBody fuel t).map fun (s, r) => ('\n' :: s, r)
      | 'r' :: t => (parseStringBody fuel t).map fun (s, r) => ('\r' :: s, r)
      | 't' :: t => (parseStringBody fuel t).map fun (s, r) => ('\t' :: s, r)
      | 'u' :: a :: b :: c :: d :: '\\' :: 'u' :: a2 :: b2 :: c2 :: d2 :: t2 =>
        match hex4? a b c d, hex4? a2 b2 c2 d2 with
        | some n, some m =>
          if 0xd800 ≤ n ∧ n ≤ 0xdbff then
            if 0xdc00 ≤ m ∧ m ≤ 0xdfff then
              (parseStringBody fuel t2).map fun (s, r) =>
                (Char.ofNat (0x10000 + (n - 0xd800) * 0x400 + (m - 0xdc00)) :: s, r)
            else
              (parseStringBody fuel ('\\' :: 'u' :: a2 :: b2 :: c2 :: d2 :: t2)).map
                fun (s, r) => ('\ufffd' :: s, r)
          else
            (parseStringBody fuel ('\\' :: 'u' :: a2 :: b2 :: c2 :: d2 :: t2)).map
              fun (s, r) => (surrChar n :: s, r)
        | _, _ => none
      | 'u' :: a :: b :: c :: d :: t =>
        match hex4? a b c d with
        | none => none
        | some n => (parseStringBody fuel t).map fun (s, r) => (surrChar n :: s, r)
      | _ => none
    | c :: t =>
      if c.toNat ≥ 0x20 then (parseStringBody fuel t).map fun (s, r) => (c :: s, r)
      else none

/-- Strict JSON number token: optional minus, integer part without
leading zeros, optional fraction, optional exponent. Returns the token
and the rest. -/
def parseNumber (l : List Char) : Option (List Char × List Char) :=
  let (sign, l1) :=
    match l with
    | '-' :: t => (['-'], t)
    | _ => (([] : List Char), l)
  let ds := l1.takeWhile Char.isDigit
  let r1 := l1.drop ds.length
  if ds.isEmpty then none
  else if ds.head? = some '0' ∧ ds.length ≠ 1 then none
  else
    let (frac, r2) :=
      match r1 with
      | '.' :: t =>
        let fs := t.takeWhile Char.isDigit
        if fs.isEmpty then (none, r1) else (some ('.' :: fs), t.drop fs.length)
      | _ => (none, r1)
    match frac, r2 with
    | none, '.' :: _ => none
    | _, _ =>
      let (expp, r3) :=
        match r2 with
        | e :: t =>
          if e = 'e' ∨ e = 'E' then
            let (es, t1) :=
              match t with
              | '+' :: t1 => (['+'], t1)
              | '-' :: t1 => (['-'], t1)
              | _ => (([] : List Char), t)
            let xs := t1.takeWhile Char.isDigit
            if xs.isEmpty then (none, r2)
            else (some (e :: (es ++ xs)), t1.drop xs.length)
          else (none, r2)
        | _ => (none, r2)
      match expp, r3 with
      | none, e :: _ =>
        if e = 'e' ∨ e = 'E' then none
        else some (sign ++ ds ++ frac.getD [], r3)
      | _, _ => some (sign ++ ds ++ frac.getD [] ++ expp.getD [], r3)

mutual

/-- One JSON value: skips leading whitespace, dispatches on the first
character, returns the value and the unconsumed input. Fuel decreases
on every call; jsonParse? passes enough for any input. -/
def parseVal : Nat → List Char → Option (Json × List Char)
  | 0, _ => none
  | fuel + 1, l =>
    match skipWsL l with
    | '{' :: t =>
      match skipWsL t with
      | '}' :: t2 => some (Json.obj [], t2)
      | _ => (parseMembers fuel t).map fun (m, r) => (Json.obj m, r)
    | '[' :: t =>
      match skipWsL t with
      | ']' :: t2 => some (Json.arr [], t2)
      | _ => (parseElems fuel t).map fun (xs, r) => (Json.arr xs, r)
    | '"' :: t => (parseStringBody (t.length + 1) t).map fun (s, r) => (Json.str (String.mk s), r)
    | 't' :: 'r' :: 'u' :: 'e' :: t => some (Json.bool true, t)
    | 'f' :: 'a' :: 'l' :: 's' :: 'e' :: t => some (Json.bool false, t)
    | 'n' :: 'u' :: 'l' :: 'l' :: t => some (Json.null, t)
    | l2 => (parseNumber l2).map fun (tok, r) => (Json.num (String.mk tok), r)

/-- Members of a non-empty object, expecting a key next (after optional
whitespace); consumes through the closing brace. -/
def parseMembers : Nat → List Char → Option (List (String × Json) × List Char)
  | 0, _ => none
  | fuel + 1, l =>
    match skipWsL l with
    | '"' :: t =>
      match parseStringBody (t.length + 1) t with
      | none => none
      | some (k, r) =>
        match skipWsL r with
        | ':' :: r2 =>
          match parseVal fuel r2 with
          | none => none
          | some (v, r3) =>
            match skipWsL r3 with
            | ',' :: r4 =>
              (parseMembers fuel r4).map fun (m, r5) => ((String.mk k, v) :: m, r5)
            | '}' :: r4 => some ([(String.mk k, v)], r4)
            | _ => none
        | _ => none
    | _ => none

/-- Elements of a non-empty array; consumes through the closing bracket. -/
def parseElems : Nat → List Char → Option (List Json × List Char)
  | 0, _ => none
  | fuel + 1, l =>
    match parseVal fuel l with
    | none => none
    | some (v, r) =>
      match skipWsL r with
      | ',' :: r2 => (parseElems fuel r2).map fun (xs, r3) => (v :: xs, r3)
      | ']' :: r2 => some ([v], r2)
      | _ => none

end

/-- JSON.parse on a character list: one value, then only whitespace may
remain. -/
def jsonParse? (l : List Char) : Option Json :=
  match parseVal (2 * l.length + 4) l with
  | some (v, rest) => if (skipWsL rest).isEmpty then some v else none
  | none => none

/-! ## JavaScript value semantics used by the parse step -/

/-- Truthiness of a parsed JSON number literal. A strict JSON numeral
denotes zero exactly when its mantissa digits are all zero, so
truthiness is decidable on the token (double rounding can only reach
zero from a nonzero mantissa through an enormous negative exponent,
which no claim exercises; noted as a model boundary). -/
def numTruthy (tok : String) : Bool :=
  (tok.data.takeWhile fun c => c ≠ 'e' ∧ c ≠ 'E').any fun c => '1' ≤ c ∧ c ≤ '9'

/-- JavaScript truthiness of a JSON.parse result value. -/
def truthy : Json → Bool
  | Json.null => false
  | Json.bool b => b
  | Json.num t => numTruthy t
  | Json.str s => !(s == "")
  | Json.arr _ => true
  | Json.obj _ => true

/-- Property access on a JSON.parse result: own property of an object,
last duplicate key wins (as in V8); anything else has no such property.
(Access on null throws in JavaScript rather than yielding undefined;
both roads end in the same catch block of worker.ts, and the model
returns none for both, so the modelled outcome is identical.) -/
def getProp : Json → String → Option Json
  | Json.obj m, k => m.foldl (fun acc p => if p.1 == k then some p.2 else acc) none
  | _, _ => none

/-! ## The worker parse step (worker.ts lines 175-276) -/

/-- The sentence appended to an answer of fewer than 100 words
(worker.ts line 246). It contributes 40 space characters. -/
def padText : String := " Based on the information provided in my CV, I can elaborate further on this topic. The experiences and skills mentioned in my resume demonstrate my approach to professional challenges and my commitment to continuous learning and growth in my field."

/-- The fixed answer inserted by the reconstruction branch
(worker.ts line 223); a 93-word paragraph. -/
def completeAnswer : String := "Based on the information provided in my CV, I can address this question professionally. The experiences and skills mentioned in my resume demonstrate my approach to professional challenges and my commitment to continuous learning and growth in my field. I believe in maintaining high standards of work quality and collaborating effectively with team members to achieve common goals. My background shows a pattern of taking initiative and contributing meaningfully to projects and organizations. I am always eager to learn new technologies and methodologies that can enhance my professional capabilities and benefit my team."

/-- The fixed answer used by the catch-branch fallback (worker.ts
line 254); the same 93-word paragraph, duplicated in the source. -/
def fallbackAnswer : String := "Based on the information provided in my CV, I can address this question professionally. The experiences and skills mentioned in my resume demonstrate my approach to professional challenges and my commitment to continuous learning and growth in my field. I believe in maintaining high standards of work quality and collaborating effectively with team members to achieve common goals. My background shows a pattern of taking initiative and contributing meaningfully to projects and organizations. I am always eager to learn new technologies and methodologies that can enhance my professional capabilities and benefit my team."

/-- The field-anchor literal of worker.ts line 206 (16 characters,
with a space after the colon). -/
def cvLit16 : String := "\"coverLetter\": \""

/-- The literal prefix of the catch-branch coverLetter regex
(worker.ts line 260; 14 characters, no space). -/
def cvLit14 : String := "\"coverLetter\":"

/-- Stage one of the parse step (worker.ts lines 181-187): trim, then
drop everything before the first opening brace when it is not at
index 0. -/
def cleanStage (g : String) : List Char :=
  match idxOf? (jsTrimL g.data) '\x7b' with
  | some i => if i > 0 then (jsTrimL g.data).drop i else jsTrimL g.data
  | none => jsTrimL g.data

/-- Whether the cleaned text contains the literal key marker of the
answer field (worker.ts line 192). -/
def hasAnswerB (l : List Char) : Bool := (subIdx? l "\"answer\"".data).isSome

/-- The incompleteness test of worker.ts line 201: no closing brace,
or the last closing brace more than 10 characters from the end, or no
answer marker. -/
def needsReconstruct (l : List Char) : Bool :=
  match lastIdxOf? l '\x7d' with
  | none => true
  | some i => decide ((i : Int) < (l.length : Int) - 10) || !(hasAnswerB l)

/-- Trimming a cut-off cover letter back to the last sentence end
(worker.ts lines 215-218): keep through the last period only when its
index is positive. -/
def coverCut (cover : List Char) : List Char :=
  match lastIdxOf? cover '.' with
  | some p => if p > 0 then cover.take (p + 1) else cover
  | none => cover

/-- Field-anchored extraction of the cover letter for reconstruction
(worker.ts lines 205-220). -/
def extractCoverForReconstruct (l : List Char) : List Char :=
  match subIdx? l cvLit16.data with
  | none => []
  | some i =>
    let start := i + 16
    match subIdxFrom? l "\",".data start with
    | some e => if e > start then sliceL l start e else coverCut (l.drop start)
    | none => coverCut (l.drop start)

/-- The replacement JSON text built by the reconstruction branch
(worker.ts lines 225-229): a two-space-indented object whose
coverLetter is the escaped extract, whose question is the selected
question inserted verbatim, and whose answer is completeAnswer. -/
def reconstruct (l : List Char) (q : String) : List Char :=
  "\x7b\n  \"coverLetter\": \"".data ++ escNl (escQuote (extractCoverForReconstruct l)) ++
  "\",\n  \"question\": \"".data ++ q.data ++
  "\",\n  \"answer\": \"".data ++ completeAnswer.data ++ "\"\n\x7d".data

/-- The text handed to JSON.parse: the cleaned response, replaced by
the reconstruction when the incompleteness test fires. -/
def afterReconstruct (g q : String) : List Char :=
  if needsReconstruct (cleanStage g) then reconstruct (cleanStage g) q
  else cleanStage g

/-- The under-100-words expansion (worker.ts lines 243-247). -/
def padAnswer (a : String) : String :=
  if countSegs a < 100 then a ++ padText else a

/-- The structured result of the parse step. In the source this is the
untyped value named parsed; its three fields are JSON values. -/
structure RecResult where
  coverLetter : Json
  question : Json
  answer : Json

/-- Field validation and answer expansion (worker.ts lines 238-247).
A missing or falsy field is a validation throw; an answer that is not
a string is a TypeError from .split; both return none here and land in
the catch branch. -/
def validateAndPad (v : Json) : Option RecResult :=
  match getProp v "coverLetter", getProp v "question", getProp v "answer" with
  | some clv, some qv, some (Json.str a) =>
    if truthy clv && truthy qv && truthy (Json.str a) then
      some ⟨clv, qv, Json.str (padAnswer a)⟩
    else none
  | _, _, _ => none

/-- The whole try block of the parse step: clean, maybe reconstruct,
strict parse, validate, pad. none means an exception was thrown
somewhere inside the try block. -/
def tryParse (g q : String) : Option RecResult :=
  (jsonParse? (afterReconstruct g q)).bind validateAndPad

/-- The catch-branch coverLetter regex (worker.ts line 260): leftmost
occurrence of the anchor literal followed by optional whitespace and a
quoted capture; the greedy capture extends to the last quote of the
remaining text. Fuel bounds the scan over candidate anchors. -/
def jsCoverRegexAux : Nat → List Char → Option (List Char)
  | 0, _ => none
  | fuel + 1, l =>
    match subIdx? l cvLit14.data with
    | none => none
    | some i =>
      match (l.drop (i + 14)).dropWhile jsWsChar with
      | '"' :: rest =>
        match lastIdxOf? rest '"' with
        | some k => some (rest.take k)
        | none => jsCoverRegexAux fuel (l.drop (i + 1))
      | _ => jsCoverRegexAux fuel (l.drop (i + 1))

def jsCoverRegex (l : List Char) : Option (List Char) :=
  jsCoverRegexAux (l.length + 1) l

/-- The catch-branch salutation regex (worker.ts line 265): leftmost
occurrence of Dear followed by at least one character other than a
closing brace; greedy to the next closing brace or end. -/
def jsDearRegexAux : Nat → List Char → Option (List Char)
  | 0, _ => none
  | fuel + 1, l =>
    match subIdx? l "Dear".data with
    | none => none
    | some i =>
      let run := (l.drop (i + 4)).takeWhile fun c => c ≠ '\x7d'
      if run.isEmpty then jsDearRegexAux fuel (l.drop (i + 1))
      else some ("Dear".data ++ run)

def jsDearRegex (l : List Char) : Option (List Char) :=
  jsDearRegexAux (l.length + 1) l

/-- The template used when no cover letter text can be scraped from
the raw response (worker.ts line 257). -/
def defaultFallbackCover : String := "Dear Hiring Manager,\n\nI am writing to express my interest in the position. Based on my experience and skills outlined in my CV, I believe I would be a great fit for this role.\n\n"

/-- The closing always appended to the fallback cover letter
(worker.ts line 272). -/
def thanksSuffix : String := "\n\nThank you for your consideration.\n\nBest regards"

/-- The salutation-anchored second try of the catch branch
(worker.ts lines 263-269). -/
def fallbackDearBranch (g : String) : List Char :=
  match jsDearRegex g.data with
  | some m => unescJs m
  | none => defaultFallbackCover.data

/-- The catch-branch cover letter before the closing is appended
(worker.ts lines 257-269): the regex capture when present and
non-empty, else the salutation scrape, else the fixed template. -/
def fallbackCoverBase (g : String) : List Char :=
  match jsCoverRegex g.data with
  | some grp => if grp.isEmpty then fallbackDearBranch g else unescJs grp
  | none => fallbackDearBranch g

/-- The complete catch-branch result (worker.ts lines 271-275). -/
def fallbackResult (g q : String) : RecResult :=
  ⟨Json.str (String.mk (fallbackCoverBase g ++ thanksSuffix.data)),
   Json.str q, Json.str fallbackAnswer⟩

/-- The whole parse step of the worker job handler (the Reconstructor,
worker.ts lines 175-276): the try block result, or the catch-branch
fallback when the try block throws. -/
def parseStep (g q : String) : RecResult :=
  (tryParse g q).getD (fallbackResult g q)

/-! ## Prompt construction (worker.ts lines 104-146) -/

/-- The fixed question pool of worker.ts lines 104-115, in source
order. -/
def randomQuestions : List String :=
  ["What\x27s your biggest professional achievement?",
   "How do you handle tight deadlines?",
   "What motivates you in your work?",
   "Describe a challenging problem you solved.",
   "What\x27s your approach to learning new technologies?",
   "How do you work in a team environment?",
   "What\x27s your biggest professional weakness and how do you address it?",
   "Where do you see yourself in 5 years?",
   "What\x27s your favorite project you\x27ve worked on?",
   "How do you stay updated with industry trends?"]

/-- Question selection (worker.ts lines 118-120): the trimmed custom
question when it is a non-empty string, else the random pick, whose
index models Math.floor(Math.random() * 10). -/
def selectQuestion (cq : Option String) (i : Fin 10) : String :=
  match cq with
  | some c => if jsTrim c == "" then randomQuestions.getD i.val "" else jsTrim c
  | none => randomQuestions.getD i.val ""

/-- Prompt text before the CV content. -/
def promptHead : String := "Create a tailored cover letter and answer a professional question based on the provided CV and job description.\n\nCV CONTENT:\n"

/-- Prompt text between the CV content and the job description. -/
def promptJob : String := "\n\nJOB DESCRIPTION:\n"

/-- Prompt text between the job description and the question. -/
def promptQuestion : String := "\n\nQUESTION TO ANSWER:\n"

/-- Prompt text between the question and its echo inside the required
output shape: the instructions and the opening of the JSON contract,
through the question field of the required shape. -/
def promptShape : String := "\n\nINSTRUCTIONS:\n1. Write a complete cover letter addressing the job requirements\n2. Answer the question with at least 100 words\n3. Use ONLY information from the CV - do not make up anything\n4. Be honest if the CV lacks relevant information\n\nREQUIRED OUTPUT FORMAT (JSON ONLY):\n\x7b\n  \"coverLetter\": \"Your complete cover letter here\",\n  \"question\": \""

/-- Prompt text after the echoed question: the answer field of the
required shape and the closing instruction. -/
def promptTail : String := "\",\n  \"answer\": \"Your detailed answer here (minimum 100 words)\"\n\x7d\n\nCRITICAL: You must return ONLY valid JSON. Complete the entire structure including the closing brace. Do not truncate or cut off the response."

/-- The full prompt template literal of worker.ts lines 122-146. -/
def buildPrompt (cvText jobContent q : String) : String :=
  promptHead ++ cvText ++ promptJob ++ jobContent ++ promptQuestion ++ q ++
  promptShape ++ q ++ promptTail

/-! ## Sender-info extraction (worker.ts lines 49-57) -/

/-- JavaScript split on a single newline character: keeps empty
segments, one more segment than separators. -/
def splitNl (l : List Char) : List (List Char) :=
  match l with
  | [] => [[]]
  | '\n' :: t => [] :: splitNl t
  | c :: t =>
    match splitNl t with
    | h :: r => (c :: h) :: r
    | [] => [[c]]

/-- The first line of the CV whose trimmed form is non-empty
(worker.ts lines 50-52); the untrimmed line is kept by the filter and
trimmed at use. -/
def firstNonEmptyLine (cvText : String) : Option (List Char) :=
  ((splitNl cvText.data).filter fun line => 0 < (jsTrimL line).length).head?

/-- The name guess of extractSenderInfo (worker.ts lines 49-57): the
trimmed first non-empty line, provided it contains no at-sign and no
decimal digit. -/
def senderName (cvText : String) : Option String :=
  match (splitNl cvText.data).filter fun line => 0 < (jsTrimL line).length with
  | [] => none
  | l :: _ =>
    if !((jsTrimL l).contains '@') && !((jsTrimL l).any Char.isDigit) then
      some (String.mk (jsTrimL l))
    else none

/-! ## The job handler as a trace-producing function
(worker.ts lines 68-364, cvProcessor.ts lines 157-166) -/

/-- The destructured job.data of worker.ts line 69. Optional fields may
be absent (undefined). -/
structure JobInput where
  jobId : String
  filePath : String
  jobUrl : Option String
  jobText : Option String
  customQuestion : Option String

/-- One oracle result per external effect the handler awaits, plus the
filesystem state it could observe. The handler is a pure function of
the input and this environment. -/
structure WorkerEnv where
  extractResult : Except String String
  fetchResult : Except String String
  llmResult : Except String String
  renderResult : Except String Unit
  dbResult : Except String Unit
  artifactExists : Bool
  uploadFileExists : Bool
  unlinkOk : Bool
  randIdx : Fin 10

/-- Observable effects emitted by the handler, in order. -/
inductive Ev where
  | progress : Nat → Ev
  | stepMsg : String → Ev
  | extractCall : String → Ev
  | fetchCall : String → Ev
  | llmCall : String → Ev
  | renderCall : String → Ev
  | dbUpdate : String → Ev
  | unlinkCall : String → Ev

/-- fs.unlinkSync as an oracle outcome. -/
def unlinkSync (ok : Bool) : Except String Unit :=
  if ok then Except.ok () else Except.error "unlink failed"

/-- cleanupFile (cvProcessor.ts lines 157-166): unlink when the file
exists, catching and swallowing any unlink error. The result says
whether the call returns normally. -/
def cleanupFileR (ex ok : Bool) : Except String Unit :=
  match (if ex then unlinkSync ok else Except.ok ()) with
  | Except.ok _ => Except.ok ()
  | Except.error _ => Except.ok ()

/-- The effect trace of one cleanupFile call. -/
def cleanupFileEvents (ex : Bool) (p : String) : List Ev :=
  if ex then [Ev.unlinkCall p] else []

/-- JavaScript truthiness of a possibly-undefined string. -/
def truthyS : Option String → Bool
  | none => false
  | some s => !(s == "")

/-- Template-literal interpolation of a possibly-undefined string. -/
def jsStringOf : Option String → String
  | none => "undefined"
  | some s => s

/-- The catch block of worker.ts lines 357-364: clean up the uploaded
file when filePath is truthy, then rethrow the original error. -/
def catchReturn (inp : JobInput) (env : WorkerEnv) (tr : List Ev) (e : String) :
    Except String (String × RecResult) × List Ev :=
  if !(inp.filePath == "") then
    (Except.error e, tr ++ cleanupFileEvents env.uploadFileExists inp.filePath)
  else (Except.error e, tr)

/-- The handler from prompt construction onward (worker.ts lines
100-355), after cvText and jobContent are in hand. -/
def runRest (inp : JobInput) (env : WorkerEnv) (cvText jobContent : String)
    (tr : List Ev) : Except String (String × RecResult) × List Ev :=
  let q := selectQuestion inp.customQuestion env.randIdx
  let prompt := buildPrompt cvText jobContent q
  let t4 := tr ++ [Ev.progress 30, Ev.stepMsg "Generating cover letter...",
                   Ev.progress 50, Ev.stepMsg "Calling AI...", Ev.llmCall prompt]
  match env.llmResult with
  | Except.error e => catchReturn inp env t4 e
  | Except.ok generatedText =>
    let parsed := parseStep generatedText q
    let coverPdfPath := "out/cover-" ++ inp.jobId ++ ".pdf"
    let t5 := t4 ++ [Ev.progress 70, Ev.stepMsg "Parsing AI response...",
                     Ev.progress 85, Ev.stepMsg "Generating PDF...",
                     Ev.renderCall coverPdfPath]
    match env.renderResult with
    | Except.error e => catchReturn inp env t5 e
    | Except.ok _ =>
      let t6 := t5 ++ [Ev.progress 100, Ev.stepMsg "Completed!",
                       Ev.dbUpdate inp.jobId]
      match env.dbResult with
      | Except.error e => catchReturn inp env t6 e
      | Except.ok _ =>
        (Except.ok (coverPdfPath, parsed),
         t6 ++ cleanupFileEvents env.uploadFileExists inp.filePath)

/-- The whole job handler (worker.ts lines 68-364). Progress and step
updates are emitted before each stage exactly as in the source; the
renderer is invoked unconditionally, with no look at
env.artifactExists. -/
def runWorker (inp : JobInput) (env : WorkerEnv) :
    Except String (String × RecResult) × List Ev :=
  let t1 := [Ev.progress 10, Ev.stepMsg "Extracting CV text...",
             Ev.extractCall inp.filePath]
  match env.extractResult with
  | Except.error e => catchReturn inp env t1 e
  | Except.ok cvText =>
    if cvText == "" || (jsTrim cvText).length == 0 then
      catchReturn inp env t1 "No text could be extracted from the CV PDF"
    else
      let t2 := t1 ++ [Ev.progress 20, Ev.stepMsg "Extracting job content..."]
      if truthyS inp.jobUrl && !(truthyS inp.jobText) then
        match env.fetchResult with
        | Except.error e => catchReturn inp env (t2 ++ [Ev.fetchCall (jsStringOf inp.jobUrl)]) e
        | Except.ok jc => runRest inp env cvText jc (t2 ++ [Ev.fetchCall (jsStringOf inp.jobUrl)])
      else
        runRest inp env cvText (jsStringOf inp.jobText) t2

/-- The progress milestones of a trace, in emission order. -/
def progressList (tr : List Ev) : List Nat :=
  tr.filterMap fun e => match e with | Ev.progress n => some n | _ => none

/-- How many generation-backend calls a trace contains. -/
def llmCount (tr : List Ev) : Nat :=
  (tr.filter fun e => match e with | Ev.llmCall _ => true | _ => false).length

/-- How many renderer invocations a trace contains. -/
def renderCount (tr : List Ev) : Nat :=
  (tr.filter fun e => match e with | Ev.renderCall _ => true | _ => false).length

/-! ## Concrete inputs for witnesses and counterexamples -/

/-- A 100-word answer (99 single spaces). -/
def w100 : String := "a a a a a a a a a a a a a a a a a a a a a a a a a a a a a a a a a a a a a a a a a a a a a a a a a a a a a a a a a a a a a a a a a a a a a a a a a a a a a a a a a a a a a a a a a a a a a a a a a a a a"

/-- A complete JSON response whose answer is short (two words). -/
def c1input : String := "\x7b\"coverLetter\":\"Dear Sir\",\"question\":\"q\",\"answer\":\"short answer\"\x7d"

/-- A complete JSON response with a 100-word answer. -/
def c1winput : String := "\x7b\"coverLetter\":\"Dear\",\"question\":\"q\",\"answer\":\"" ++ w100 ++ "\"\x7d"

/-- The parse of c1winput. -/
def c1wvalue : Json :=
  Json.obj [("coverLetter", Json.str "Dear"), ("question", Json.str "q"),
            ("answer", Json.str w100)]

/-- A complete JSON response whose coverLetter is the number 5. -/
def c2input : String := "\x7b\"coverLetter\":5,\"question\":\"q\",\"answer\":\"a\"\x7d"

/-- A complete JSON response whose answer has one word. -/
def c3input : String := "\x7b\"coverLetter\":\"Dear Sir\",\"question\":\"q\",\"answer\":\"ok\"\x7d"

/-- A well-formed JSON object for the trailing-garbage scenario. -/
def c9json : String := "\x7b\"coverLetter\":\"x\",\"question\":\"q\",\"answer\":\"a\"\x7d"

/-- The same object followed by three trailing characters. -/
def c9input : String := c9json ++ "abc"

/-- The fields of the parse of c9json. -/
def c9fields : List (String × Json) :=
  [("coverLetter", Json.str "x"), ("question", Json.str "q"), ("answer", Json.str "a")]

/-- A CV whose first non-empty line is a plain name. -/
def c8cv : String := "Jane Doe\njane@x.com\n+1 555-0100"

/-- A fixed random-question index. -/
def idx0 : Fin 10 := ⟨0, by decide⟩

/-- A job input used by the worker witnesses and counterexamples. -/
def inpOkA : JobInput := ⟨"j1", "uploads/cv-1.pdf", none, some "job text", none⟩

def inpOkB : JobInput := ⟨"j2", "uploads/cv-2.pdf", none, some "job text", none⟩

def inpOkC : JobInput := ⟨"j3", "uploads/cv-3.pdf", none, some "job text", none⟩

def inpOkD : JobInput := ⟨"j4", "uploads/cv-4.pdf", none, some "job text", none⟩

/-- An all-success environment in which the artifact for the job
already exists before the handler runs. -/
def envArtifactExists : WorkerEnv :=
  ⟨Except.ok "Jane Doe", Except.ok "", Except.ok "\x7b\x7d", Except.ok (),
   Except.ok (), true, true, true, idx0⟩

/-- An all-success environment for the progress witness. -/
def envAllOk : WorkerEnv :=
  ⟨Except.ok "Jane Doe", Except.ok "", Except.ok "\x7b\x7d", Except.ok (),
   Except.ok (), false, true, true, idx0⟩

/-- An environment whose extraction yields only whitespace. -/
def envBlankCv : WorkerEnv :=
  ⟨Except.ok "   ", Except.ok "", Except.ok "\x7b\x7d", Except.ok (),
   Except.ok (), false, true, true, idx0⟩

/-- A second all-success environment, for the rendering claim. -/
def envAllOk2 : WorkerEnv :=
  ⟨Except.ok "Jane Doe", Except.ok "", Except.ok "\x7b\x7d", Except.ok (),
   Except.ok (), false, true, true, idx0⟩

/-- Whether a JSON value is a string. -/
def isStrB : Json → Bool
  | Json.str _ => true
  | _ => false

/-! ## Helper lemmas about the parse step -/

theorem mk_append_thanks_ne_empty (l : List Char) :
    (String.mk (l ++ thanksSuffix.data) == "") = false := by
  rw [beq_eq_false_iff_ne]
  intro h
  have hd : l ++ thanksSuffix.data = [] := congrArg String.data h
  have := (List.append_eq_nil.mp hd).2
  exact absurd this (by decide)

theorem tryParse_shape (g q : String) (p : RecResult) (h : tryParse g q = some p) :
    truthy p.coverLetter = true ∧ ∃ a : String, p.answer = Json.str (padAnswer a) := by
  unfold tryParse at h
  cases hj : jsonParse? (afterReconstruct g q) with
  | none => rw [hj] at h; simp at h
  | some v =>
    rw [hj] at h
    simp only [Option.some_bind] at h
    unfold validateAndPad at h
    split at h
    · split at h
      · rename_i clv qv a heqa heqb heqc hguard
        simp only [Option.some.injEq] at h
        subst h
        rw [Bool.and_eq_true, Bool.and_eq_true] at hguard
        exact ⟨hguard.1.1, a, rfl⟩
      · exact absurd h (by simp)
    · exact absurd h (by simp)

theorem countSegs_ge_one (a : String) : 1 ≤ countSegs a := by
  unfold countSegs; omega

theorem countSegs_padAnswer (a : String) : 41 ≤ countSegs (padAnswer a) := by
  unfold padAnswer
  split
  · have hp : padText.data.count ' ' = 40 := by decide
    have : countSegs (a ++ padText) = countSegs a + 40 := by
      unfold countSegs
      rw [String.data_append, List.count_append, hp]
    have h1 := countSegs_ge_one a
    omega
  · omega

/-! ## Claims about the Reconstructor -/

/-- C2 (amended): the Reconstructor is total, and its coverLetter is
always truthy: whenever it is a string (in particular whenever the
catch-branch fallback produced it) that string is non-empty. The
original claim that it is always a non-empty string fails, because the
direct-parse path passes through any truthy JSON value, string or not
(see the counterexample). -/
theorem reconstructor_cover_truthy (g q : String) :
    truthy (parseStep g q).coverLetter = true ∧
    ∀ s : String, (parseStep g q).coverLetter = Json.str s → s ≠ "" := by
  have main : truthy (parseStep g q).coverLetter = true := by
    unfold parseStep
    cases h : tryParse g q with
    | some p => exact (tryParse_shape g q p h).1
    | none =>
      show (!(String.mk (fallbackCoverBase g ++ thanksSuffix.data) == "")) = true
      rw [mk_append_thanks_ne_empty]
      rfl
  refine ⟨main, ?_⟩
  intro s hs
  rw [hs] at main
  simp only [truthy, Bool.not_eq_true'] at main
  exact ne_of_beq_false main

/-- C2 (counterexample): on a complete JSON response whose coverLetter
is the number 5, the parse step validates it as truthy and returns a
result whose coverLetter is the number 5, not a string at all,
refuting the claim that the returned coverLetter is always a non-empty
string. -/
theorem reconstructor_cover_string_cex :
    (parseStep c2input "q").coverLetter = Json.num "5" ∧
    isStrB (parseStep c2input "q").coverLetter = false :=
  ⟨rfl, rfl⟩

/-- C3 (amended): for every input the returned answer is a string of
at least 41 split-on-space words: the direct-parse path pads an answer
under 100 words with a fixed 40-space sentence exactly once (so 100
words are reached only when the parsed answer already had at least 60),
and the catch-branch fallback answer is a fixed 93-word paragraph. The
claimed 100-word minimum fails on both counts. -/
theorem reconstructor_answer_words (g q : String) :
    ∃ a : String, (parseStep g q).answer = Json.str a ∧ 41 ≤ countSegs a := by
  unfold parseStep
  cases h : tryParse g q with
  | some p =>
    obtain ⟨-, a, ha⟩ := tryParse_shape g q p h
    exact ⟨padAnswer a, ha, countSegs_padAnswer a⟩
  | none =>
    exact ⟨fallbackAnswer, rfl, by decide⟩

/-- C3 (counterexample): a complete JSON response whose answer is the
single word ok is accepted by the direct parse and padded once; the
result has 41 words, well under the claimed 100-word minimum. -/
theorem reconstructor_answer_words_cex :
    (parseStep c3input "q").answer = Json.str ("ok" ++ padText) ∧
    countSegs ("ok" ++ padText) < 100 :=
  ⟨rfl, by decide⟩

/-- C1 (amended): if the cleaned response (trimmed, prefix before the
first brace dropped) passes the incompleteness test and parses
strictly to a value whose coverLetter, question and answer are
non-empty strings, and the answer has at least 100 split-on-space
words, then the parse step returns exactly those field values
unmodified, in the direct-parse stage. The original claim, which did
not require the 100-word minimum, fails because a shorter answer is
padded (see the counterexample). -/
theorem reconstructor_direct_roundtrip (g q : String) (v : Json) (cl qv av : String)
    (h1 : needsReconstruct (cleanStage g) = false)
    (h2 : jsonParse? (cleanStage g) = some v)
    (h3 : getProp v "coverLetter" = some (Json.str cl)) (h4 : cl ≠ "")
    (h5 : getProp v "question" = some (Json.str qv)) (h6 : qv ≠ "")
    (h7 : getProp v "answer" = some (Json.str av)) (h8 : 100 ≤ countSegs av) :
    parseStep g q = ⟨Json.str cl, Json.str qv, Json.str av⟩ := by
  have hav : av ≠ "" := by
    intro hc
    rw [hc] at h8
    exact absurd h8 (by decide)
  have haf : afterReconstruct g q = cleanStage g := by
    unfold afterReconstruct
    rw [h1]
    simp
  have hpad : padAnswer av = av := by
    unfold padAnswer
    rw [if_neg (by omega)]
  have hvp : validateAndPad v = some ⟨Json.str cl, Json.str qv, Json.str av⟩ := by
    unfold validateAndPad
    rw [h3, h5, h7]
    simp only [truthy]
    have hcond : (!(cl == "") && !(qv == "") && !(av == "")) = true := by
      rw [beq_eq_false_iff_ne.mpr h4, beq_eq_false_iff_ne.mpr h6,
          beq_eq_false_iff_ne.mpr hav]
      rfl
    rw [if_pos hcond, hpad]
  unfold parseStep tryParse
  rw [haf, h2]
  simp only [Option.some_bind]
  rw [hvp]
  rfl

/-- C1 (counterexample): a well-formed JSON response with non-empty
coverLetter, question and answer is not returned unmodified when the
answer is short: the two-word answer is padded, so the returned answer
differs from the parsed field value. -/
theorem reconstructor_direct_roundtrip_cex :
    (parseStep c1input "q").answer = Json.str ("short answer" ++ padText) ∧
    (("short answer" ++ padText) == "short answer") = false :=
  ⟨rfl, by decide⟩

/-- C1 (witness): a complete JSON response with a 100-word answer
round-trips through the parse step unmodified. -/
theorem reconstructor_direct_roundtrip_witness :
    parseStep c1winput "q" = ⟨Json.str "Dear", Json.str "q", Json.str w100⟩ :=
  reconstructor_direct_roundtrip c1winput "q" c1wvalue "Dear" "q" w100
    (by decide) rfl rfl (by decide) rfl (by decide) rfl (by decide)

/-! ## Helper lemmas about indexing, for the trailing-garbage claim -/

theorem idxOf?_head (l : List Char) (c : Char) (h : l.head? = some c) :
    idxOf? l c = some 0 := by
  cases l with
  | nil => simp at h
  | cons a t =>
    simp only [List.head?_cons, Option.some.injEq] at h
    subst h
    unfold idxOf?
    rw [if_pos rfl]

theorem lastIdxOf?_lt_length (l : List Char) (c : Char) (i : Nat)
    (h : lastIdxOf? l c = some i) : i < l.length := by
  induction l generalizing i with
  | nil => simp [lastIdxOf?] at h
  | cons a t ih =>
    unfold lastIdxOf? at h
    cases ht : lastIdxOf? t c with
    | some j =>
      rw [ht] at h
      simp at h
      have := ih j ht
      simp only [List.length_cons]
      omega
    | none =>
      rw [ht] at h
      by_cases hac : a = c
      · rw [if_pos hac] at h
        simp at h
        simp only [List.length_cons]
        omega
      · rw [if_neg hac] at h
        exact absurd h (by simp)

theorem lastIdxOf?_append (l1 l2 : List Char) (c : Char) (k : Nat)
    (h : lastIdxOf? l2 c = some k) :
    lastIdxOf? (l1 ++ l2) c = some (l1.length + k) := by
  induction l1 with
  | nil => simpa using h
  | cons a t ih =>
    show lastIdxOf? (a :: (t ++ l2)) c = some (t.length + 1 + k)
    unfold lastIdxOf?
    rw [ih]
    simp only [Option.some.injEq]
    omega

theorem lastIdxOf?_cons_self (c : Char) (t : List Char) :
    ∃ k, lastIdxOf? (c :: t) c = some k ∧ k ≤ t.length := by
  unfold lastIdxOf?
  cases h : lastIdxOf? t c with
  | some i =>
    have hi : i < t.length := lastIdxOf?_lt_length t c i h
    exact ⟨i + 1, rfl, by omega⟩
  | none => exact ⟨0, by rw [if_pos rfl], by omega⟩

/-- C9 (confirmed): when the trimmed raw text is a well-formed JSON
object starting at index 0 (with the coverLetter, question and answer
fields) followed by one to nine trailing non-whitespace characters,
the incompleteness test does not fire (the last closing brace is
within 10 characters of the end and the answer marker is present), the
strict parse of the whole text fails on the trailing characters, and
the parse step returns the catch-branch fallback, whose answer is the
fixed fallback paragraph rather than the object's answer value. -/
theorem trailing_garbage_fallback (g q : String) (J t : List Char)
    (fields : List (String × Json))
    (hsplit : jsTrimL g.data = J ++ t)
    (hhead : (J ++ t).head? = some '\x7b')
    (hlast : J.getLast? = some '\x7d')
    (hparse : parseVal (2 * (J ++ t).length + 4) (J ++ t) = some (Json.obj fields, t))
    (hcl : (fields.map Prod.fst).contains "coverLetter" = true)
    (hqu : (fields.map Prod.fst).contains "question" = true)
    (hanf : (fields.map Prod.fst).contains "answer" = true)
    (hans : hasAnswerB (J ++ t) = true)
    (ht1 : t ≠ []) (ht9 : t.length ≤ 9)
    (htws : ∀ c ∈ t, jsonWsChar c = false) :
    parseStep g q = fallbackResult g q ∧
    (parseStep g q).answer = Json.str fallbackAnswer := by
  have hclean : cleanStage g = J ++ t := by
    unfold cleanStage
    rw [hsplit, idxOf?_head _ _ hhead]
    simp
  have hrev : J.reverse.head? = some '\x7d' := by
    rw [List.head?_reverse]
    exact hlast
  obtain ⟨rest, hJ⟩ : ∃ rest : List Char, J = rest.reverse ++ ['\x7d'] := by
    cases hr : J.reverse with
    | nil => rw [hr] at hrev; exact absurd hrev (by simp)
    | cons c0 rest =>
      rw [hr] at hrev
      simp only [List.head?_cons, Option.some.injEq] at hrev
      subst hrev
      refine ⟨rest, ?_⟩
      have := congrArg List.reverse hr
      simpa using this
  obtain ⟨k, hk, hkle⟩ := lastIdxOf?_cons_self '\x7d' t
  have hlastIdx : lastIdxOf? (J ++ t) '\x7d' = some (rest.reverse.length + k) := by
    rw [hJ, List.append_assoc]
    exact lastIdxOf?_append _ _ _ _ hk
  have hlen : (J ++ t).length = rest.reverse.length + 1 + t.length := by
    rw [hJ]
    simp
    omega
  have hneeds : needsReconstruct (J ++ t) = false := by
    unfold needsReconstruct
    rw [hlastIdx, hans]
    simp only [Bool.not_true, Bool.or_false]
    apply decide_eq_false
    push_cast
    omega
  have hjp : jsonParse? (J ++ t) = none := by
    unfold jsonParse?
    rw [hparse]
    obtain ⟨c0, t0, rfl⟩ : ∃ c0 t0, t = c0 :: t0 := by
      cases t with
      | nil => exact absurd rfl ht1
      | cons a b => exact ⟨a, b, rfl⟩
    have hws : jsonWsChar c0 = false := htws c0 (by simp)
    simp [skipWsL, List.dropWhile_cons, hws]
  have htp : tryParse g q = none := by
    unfold tryParse afterReconstruct
    rw [hclean, hneeds]
    simp [hjp]
  constructor
  · unfold parseStep
    rw [htp]
    rfl
  · unfold parseStep
    rw [htp]
    rfl

/-- C9 (witness): a concrete complete object followed by three
characters of garbage lands in the catch branch and returns the fixed
fallback answer. -/
theorem trailing_garbage_fallback_witness :
    parseStep c9input "q" = fallbackResult c9input "q" ∧
    (parseStep c9input "q").answer = Json.str fallbackAnswer :=
  trailing_garbage_fallback c9input "q" c9json.data "abc".data c9fields
    rfl rfl (by decide) rfl (by decide) (by decide) (by decide) (by decide)
    (by decide) (by decide) (by decide)

/-! ## Helper lemmas about traces -/

theorem progressList_append (t1 t2 : List Ev) :
    progressList (t1 ++ t2) = progressList t1 ++ progressList t2 := by
  unfold progressList
  exact List.filterMap_append t1 t2 _

theorem llmCount_append (t1 t2 : List Ev) :
    llmCount (t1 ++ t2) = llmCount t1 + llmCount t2 := by
  unfold llmCount
  rw [List.filter_append, List.length_append]

theorem renderCount_append (t1 t2 : List Ev) :
    renderCount (t1 ++ t2) = renderCount t1 + renderCount t2 := by
  unfold renderCount
  rw [List.filter_append, List.length_append]

theorem progressList_cleanup (ex : Bool) (p : String) :
    progressList (cleanupFileEvents ex p) = [] := by
  cases ex <;> rfl

theorem llmCount_cleanup (ex : Bool) (p : String) :
    llmCount (cleanupFileEvents ex p) = 0 := by
  cases ex <;> rfl

theorem renderCount_cleanup (ex : Bool) (p : String) :
    renderCount (cleanupFileEvents ex p) = 0 := by
  cases ex <;> rfl

theorem progressList_runRest (inp : JobInput) (env : WorkerEnv) (cv jc g : String)
    (tr : List Ev)
    (hl : env.llmResult = Except.ok g)
    (hr : env.renderResult = Except.ok ())
    (hd : env.dbResult = Except.ok ()) :
    progressList (runRest inp env cv jc tr).2 =
      progressList tr ++ [30, 50, 70, 85, 100] := by
  simp only [runRest, hl, hr, hd]
  rw [progressList_append, progressList_append, progressList_append,
      progressList_append, progressList_cleanup]
  simp [progressList]

theorem renderCount_runRest (inp : JobInput) (env : WorkerEnv) (cv jc g : String)
    (tr : List Ev)
    (hl : env.llmResult = Except.ok g)
    (hr : env.renderResult = Except.ok ())
    (hd : env.dbResult = Except.ok ()) :
    renderCount (runRest inp env cv jc tr).2 = renderCount tr + 1 := by
  simp only [runRest, hl, hr, hd]
  rw [renderCount_append, renderCount_append, renderCount_append,
      renderCount_append, renderCount_cleanup]
  simp [renderCount]

/-! ## Claims about the job handler pipeline -/

/-- C7 (confirmed): a job that runs to successful completion reports
progress 10, 20, 30, 50, 70, 85, 100 in that order, one milestone
before each pipeline stage, so the progress updates of one job are
monotonically non-decreasing. -/
theorem worker_progress_milestones (inp : JobInput) (env : WorkerEnv)
    (cv jc g : String)
    (hex : env.extractResult = Except.ok cv)
    (hne : (cv == "" || (jsTrim cv).length == 0) = false)
    (hf : env.fetchResult = Except.ok jc)
    (hl : env.llmResult = Except.ok g)
    (hr : env.renderResult = Except.ok ())
    (hd : env.dbResult = Except.ok ()) :
    progressList (runWorker inp env).2 = [10, 20, 30, 50, 70, 85, 100] ∧
    List.Chain' (· ≤ ·) (progressList (runWorker inp env).2) := by
  have main : progressList (runWorker inp env).2 = [10, 20, 30, 50, 70, 85, 100] := by
    simp only [runWorker, hex, hne, Bool.false_eq_true, if_false, hf]
    split
    · rw [progressList_runRest inp env cv jc g _ hl hr hd]
      simp [progressList_append, progressList]
    · rw [progressList_runRest inp env cv (jsStringOf inp.jobText) g _ hl hr hd]
      simp [progressList_append, progressList]
  exact ⟨main, by rw [main]; simp [List.chain'_cons]⟩

/-- C7 (witness): a concrete successful run reports exactly the seven
milestones in order. -/
theorem worker_progress_milestones_witness :
    progressList (runWorker inpOkB envAllOk).2 = [10, 20, 30, 50, 70, 85, 100] ∧
    List.Chain' (· ≤ ·) (progressList (runWorker inpOkB envAllOk).2) :=
  worker_progress_milestones inpOkB envAllOk "Jane Doe" "" "\x7b\x7d"
    rfl (by decide) rfl rfl rfl rfl

/-- C4 (amended): the worker performs no artifact-existence check
before rendering: every successful run invokes the renderer exactly
once, whatever the state of out/cover-(jobId).pdf, and the handler is
insensitive to that state altogether. The original claim of an
existence-gated skip fails (see the counterexample); re-invoking the
stage for the same jobId renders again, overwriting the same path. -/
theorem worker_render_unconditional (inp : JobInput) (env : WorkerEnv)
    (cv jc g : String) (b : Bool)
    (hex : env.extractResult = Except.ok cv)
    (hne : (cv == "" || (jsTrim cv).length == 0) = false)
    (hf : env.fetchResult = Except.ok jc)
    (hl : env.llmResult = Except.ok g)
    (hr : env.renderResult = Except.ok ())
    (hd : env.dbResult = Except.ok ()) :
    renderCount (runWorker inp env).2 = 1 ∧
    runWorker inp {env with artifactExists := b} = runWorker inp env := by
  constructor
  · simp only [runWorker, hex, hne, Bool.false_eq_true, if_false, hf]
    split
    · rw [renderCount_runRest inp env cv jc g _ hl hr hd]
      simp [renderCount]
    · rw [renderCount_runRest inp env cv (jsStringOf inp.jobText) g _ hl hr hd]
      simp [renderCount]
  · obtain ⟨e1, e2, e3, e4, e5, ae, uf, ul, ri⟩ := env
    rfl

/-- C4 (counterexample): in an environment where the artifact for the
job already exists, a successful run still invokes the renderer,
refuting the claimed skip-if-exists gate. -/
theorem worker_render_idempotence_cex :
    envArtifactExists.artifactExists = true ∧
    renderCount (runWorker inpOkA envArtifactExists).2 = 1 :=
  ⟨rfl, by decide⟩

/-- C4 (witness): a concrete successful run renders exactly once and
is unchanged by flipping the artifact-existence state. -/
theorem worker_render_unconditional_witness :
    renderCount (runWorker inpOkD envAllOk2).2 = 1 ∧
    runWorker inpOkD {envAllOk2 with artifactExists := true} = runWorker inpOkD envAllOk2 :=
  worker_render_unconditional inpOkD envAllOk2 "Jane Doe" "" "\x7b\x7d" true
    rfl (by decide) rfl rfl rfl rfl

/-- C5 (confirmed): when CV extraction succeeds but yields an empty or
whitespace-only string, the handler throws the extraction-derived
error before any generation-backend call: the job fails with the fixed
message and the trace contains no such call. -/
theorem worker_empty_cv_no_generation (inp : JobInput) (env : WorkerEnv) (cv : String)
    (hex : env.extractResult = Except.ok cv)
    (hcv : jsTrim cv = "") :
    (runWorker inp env).1 = Except.error "No text could be extracted from the CV PDF" ∧
    llmCount (runWorker inp env).2 = 0 := by
  have hg : (cv == "" || (jsTrim cv).length == 0) = true := by
    rw [hcv]
    simp
  simp only [runWorker, hex, hg, if_true]
  unfold catchReturn
  constructor
  · split <;> rfl
  · split
    · rw [llmCount_append, llmCount_cleanup]
      rfl
    · rfl

/-- C5 (witness): extraction yielding three spaces fails the job with
the fixed message and no generation call. -/
theorem worker_empty_cv_no_generation_witness :
    (runWorker inpOkC envBlankCv).1 =
      Except.error "No text could be extracted from the CV PDF" ∧
    llmCount (runWorker inpOkC envBlankCv).2 = 0 :=
  worker_empty_cv_no_generation inpOkC envBlankCv "   " rfl (by decide)

/-- C10 (confirmed): cleanupFile returns normally for every filesystem
state (missing file, failing unlink), and the handler outcome is
independent of the cleanup-related filesystem state on the success and
the error path alike, with the original pipeline error preserved by
the catch block. -/
theorem cleanup_never_throws :
    (∀ ex ok : Bool, cleanupFileR ex ok = Except.ok ()) ∧
    (∀ (inp : JobInput) (env : WorkerEnv) (a b : Bool),
      (runWorker inp {env with uploadFileExists := a, unlinkOk := b}).1 =
        (runWorker inp env).1) ∧
    (∀ (inp : JobInput) (env : WorkerEnv) (tr : List Ev) (e : String),
      (catchReturn inp env tr e).1 = Except.error e) := by
  refine ⟨?_, ?_, ?_⟩
  · intro ex ok
    cases ex <;> cases ok <;> rfl
  · intro inp env a b
    obtain ⟨e1, e2, e3, e4, e5, ae, uf, ul, ri⟩ := env
    simp only [runWorker, runRest, catchReturn]
    cases e1 <;> cases e2 <;> cases e3 <;> cases e4 <;> cases e5 <;>
      simp only [] <;> (repeat' split) <;> rfl
  · intro inp env tr e
    unfold catchReturn
    split <;> rfl

/-! ## Claims about the prompt builder and sender extraction -/

theorem subIdx?_isSome_iff (pat l : List Char) :
    (subIdx? l pat).isSome = true ↔ pat <:+: l := by
  induction l with
  | nil =>
    unfold subIdx?
    by_cases hp : pat.isEmpty
    · rw [if_pos hp]
      simp [List.isEmpty_iff.mp hp]
    · rw [if_neg hp]
      simp only [Option.isSome_none, Bool.false_eq_true, false_iff]
      intro hinf
      exact hp (by simp [List.eq_nil_of_infix_nil hinf])
  | cons a t ih =>
    unfold subIdx?
    by_cases hp : pat.isPrefixOf (a :: t)
    · rw [if_pos hp]
      simp only [Option.isSome_some, true_iff]
      exact (List.isPrefixOf_iff_prefix.mp hp).isInfix
    · rw [if_neg hp]
      have hm : (Option.map (fun x => x + 1) (subIdx? t pat)).isSome
          = (subIdx? t pat).isSome := by
        cases subIdx? t pat <;> rfl
      rw [hm, ih, List.infix_cons_iff]
      constructor
      · exact Or.inr
      · rintro (h | h)
        · exact absurd (List.isPrefixOf_iff_prefix.mpr h) hp
        · exact h

theorem containsSub_of_infix (s pat : String) (h : pat.data <:+: s.data) :
    containsSub s pat = true := by
  unfold containsSub
  rw [subIdx?_isSome_iff]
  exact h

/-- C6 (amended): the prompt builder produces a single variant: the
question and answer fields always appear in the required output shape,
whether or not a custom question was supplied; when none is supplied, a
question from the fixed ten-element pool is used instead. The claimed
letter-only variant does not exist (see the counterexample). -/
theorem prompt_always_includes_question (cv jc : String) (cq : Option String)
    (i : Fin 10) :
    containsSub (buildPrompt cv jc (selectQuestion cq i)) "\"question\": \"" = true ∧
    containsSub (buildPrompt cv jc (selectQuestion cq i)) "\"answer\": \"" = true ∧
    selectQuestion none i ∈ randomQuestions := by
  refine ⟨?_, ?_, ?_⟩
  · apply containsSub_of_infix
    have h1 : "\"question\": \"".data <:+: promptShape.data := by decide
    have h2 : promptShape.data <:+: (buildPrompt cv jc (selectQuestion cq i)).data := by
      unfold buildPrompt
      refine ⟨(promptHead ++ cv ++ promptJob ++ jc ++ promptQuestion ++
               selectQuestion cq i).data, (selectQuestion cq i ++ promptTail).data, ?_⟩
      simp [String.data_append, List.append_assoc]
    exact h1.trans h2
  · apply containsSub_of_infix
    have h1 : "\"answer\": \"".data <:+: promptTail.data := by decide
    have h2 : promptTail.data <:+: (buildPrompt cv jc (selectQuestion cq i)).data := by
      unfold buildPrompt
      refine ⟨(promptHead ++ cv ++ promptJob ++ jc ++ promptQuestion ++
               selectQuestion cq i ++ promptShape ++ selectQuestion cq i).data,
              ([] : List Char), ?_⟩
      simp [String.data_append, List.append_assoc]
    exact h1.trans h2
  · show randomQuestions.getD i.val "" ∈ randomQuestions
    have hlt : i.val < randomQuestions.length := by
      have := i.isLt
      simp only [randomQuestions, List.length]
      omega
    rw [List.getD_eq_getElem randomQuestions "" hlt]
    exact List.getElem_mem hlt

/-- C6 (counterexample): with no custom question supplied, the prompt
still contains both the question and the answer fields of the required
output shape, refuting the claimed letter-only variant. -/
theorem prompt_letter_only_cex :
    containsSub (buildPrompt "cv" "job" (selectQuestion none idx0)) "\"question\": \"" = true ∧
    containsSub (buildPrompt "cv" "job" (selectQuestion none idx0)) "\"answer\": \"" = true :=
  ⟨by decide, by decide⟩

/-- C8 (confirmed): the name field is set if and only if the first
non-empty line of the CV, after trimming, contains no at-sign and no
decimal digit, and when set it equals that trimmed line; in particular
a first line containing a digit yields no name. -/
theorem sender_name_rule (cv : String) (l : List Char)
    (h : firstNonEmptyLine cv = some l) :
    senderName cv =
      if !((jsTrimL l).contains '@') && !((jsTrimL l).any Char.isDigit)
      then some (String.mk (jsTrimL l)) else none := by
  unfold firstNonEmptyLine at h
  unfold senderName
  cases hf : (splitNl cv.data).filter (fun line => 0 < (jsTrimL line).length) with
  | nil => rw [hf] at h; simp at h
  | cons a t =>
    rw [hf] at h
    simp only [List.head?_cons, Option.some.injEq] at h
    subst h
    rfl

/-- C8 (witness): a CV whose first non-empty line is a plain name sets
the name to that line. -/
theorem sender_name_rule_witness : senderName c8cv = some "Jane Doe" := by
  have h := sender_name_rule c8cv "Jane Doe".data rfl
  rw [h]
  rfl

/-- C2 (witness): at a concrete unusable input the result coverLetter
is a string produced by the fallback and that string is non-empty. -/
theorem reconstructor_cover_truthy_witness :
    ((String.mk (fallbackCoverBase "x" ++ thanksSuffix.data)) == "") = false :=
  beq_eq_false_iff_ne.mpr
    ((reconstructor_cover_truthy "x" "q").2
      (String.mk (fallbackCoverBase "x" ++ thanksSuffix.data)) rfl)
